import Mathlib

/-!
Verification of the tracking subsystem of the `landing-one` repository
(`src/utils/trackingUtils.ts`), against its natural-language specification.

The TypeScript code is shallowly embedded: pure functions become Lean
functions, browser/ambient state becomes an explicit environment record,
JavaScript numbers become `Nat`/`Int`/`Rat` as appropriate, values that may
be `undefined`/`null` become `Option`, and `try`/`catch` blocks become an
`Except`-returning body plus a total wrapper.
-/

namespace Tracking

/-! ## Device type detection (`TrackingUtils.detectDeviceType`)

The source classifies via two case-insensitive regular expressions:

  isMobile = /Android|webOS|iPhone|iPad|iPod|BlackBerry|IEMobile|Opera Mini/i.test(ua)
  isTablet = /iPad|Android(?=.*\bMobile\b)(?=.*\bSafari\b)/i.test(ua)
  isDesktop = !isMobile && !isTablet

We embed regex `test` over `List Char`: case-insensitive matching is
modelled by lowercasing the subject and the (already lowercase) pattern
literals; `test` asks whether a match exists at some position. The tablet
pattern's lookaheads `(?=.*\bX\b)` are modelled exactly: from the position
just after `Android`, some run of non-newline characters (`.` does not
match a newline) is followed by the literal `X` enclosed in word
boundaries. -/

/-- JavaScript regex word character: `[A-Za-z0-9_]`. -/
def isWordCharJS (c : Char) : Bool :=
  (('a' ≤ c && c ≤ 'z') || ('A' ≤ c && c ≤ 'Z') || ('0' ≤ c && c ≤ '9') || c = '_')

/-- Lowercase a character list (models the `/i` flag). -/
def lcs (s : List Char) : List Char := s.map Char.toLower

/-- Does `pat` occur in `s` starting at index `i`? -/
def subAt (pat s : List Char) (i : Nat) : Bool := pat.isPrefixOf (s.drop i)

/-- Does `pat` occur anywhere in `s` as a contiguous run? (regex literal `test`) -/
def containsSub (pat s : List Char) : Bool :=
  (List.range (s.length + 1)).any (fun i => subAt pat s i)

/-- Is there a regex word boundary `\b` between positions `k-1` and `k` of `s`? -/
def boundaryAt (s : List Char) (k : Nat) : Bool :=
  let prevWord : Bool :=
    if k = 0 then false else
      match s.get? (k - 1) with
      | some c => isWordCharJS c
      | none => false
  let curWord : Bool :=
    match s.get? k with
    | some c => isWordCharJS c
    | none => false
  prevWord != curWord

/-- The lookahead `(?=.*\bw\b)` evaluated at position `p` of `s`: some
position `k ≥ p` carries `w` with word boundaries on both sides, and the
characters of `s` strictly between `p` and `k` (consumed by `.*`) contain
no newline. -/
def lookaheadWordAt (w s : List Char) (p : Nat) : Bool :=
  (List.range (s.length + 1)).any (fun k =>
    decide (p ≤ k) && subAt w s k
      && ((s.take k).drop p).all (fun c => c ≠ '\n')
      && boundaryAt s k && boundaryAt s (k + w.length))

/-- The mobile pattern
`/Android|webOS|iPhone|iPad|iPod|BlackBerry|IEMobile|Opera Mini/i`. -/
def mobileTest (ua : List Char) : Bool :=
  let l := lcs ua
  containsSub "android".toList l || containsSub "webos".toList l
    || containsSub "iphone".toList l || containsSub "ipad".toList l
    || containsSub "ipod".toList l || containsSub "blackberry".toList l
    || containsSub "iemobile".toList l || containsSub "opera mini".toList l

/-- The tablet pattern `/iPad|Android(?=.*\bMobile\b)(?=.*\bSafari\b)/i`:
either `iPad` occurs, or `Android` occurs at some position `i` and both
lookaheads hold at position `i + 7` (just after `Android`). -/
def tabletTest (ua : List Char) : Bool :=
  let l := lcs ua
  containsSub "ipad".toList l
    || (List.range (l.length + 1)).any (fun i =>
        subAt "android".toList l i
          && lookaheadWordAt "mobile".toList l (i + 7)
          && lookaheadWordAt "safari".toList l (i + 7))

/-- Result record of `detectDeviceType`. -/
structure DeviceType where
  isMobile : Bool
  isTablet : Bool
  isDesktop : Bool
  touchSupport : Bool
  deriving Repr, DecidableEq

/-- `TrackingUtils.detectDeviceType(userAgent)`; `ontouch` models
`'ontouchstart' in window`. -/
def detectDeviceType (ua : List Char) (ontouch : Bool) : DeviceType :=
  let isMobile := mobileTest ua
  let isTablet := tabletTest ua
  { isMobile := isMobile
    isTablet := isTablet
    isDesktop := !isMobile && !isTablet
    touchSupport := ontouch }

/-- Any list whose lowercasing carries `pat` at a position drawn from
`List.range (length + 1)` satisfies `containsSub pat`. -/
lemma containsSub_of_subAt {pat l : List Char} {i : Nat}
    (hi : i ∈ List.range (l.length + 1)) (h : subAt pat l i = true) :
    containsSub pat l = true := by
  unfold containsSub
  rw [List.any_eq_true]
  exact ⟨i, hi, h⟩

/-- Every user agent matched by the tablet pattern is also matched by the
mobile pattern: the tablet pattern's two branches begin with `iPad` and
`Android`, both of which are alternatives of the mobile pattern. -/
lemma mobileTest_of_tabletTest {ua : List Char} (h : tabletTest ua = true) :
    mobileTest ua = true := by
  unfold tabletTest at h
  unfold mobileTest
  rw [Bool.or_eq_true] at h
  rcases h with h | h
  · -- `iPad` branch
    simp only [Bool.or_eq_true]
    tauto
  · -- `Android` branch
    rw [List.any_eq_true] at h
    obtain ⟨i, hi, hcond⟩ := h
    rw [Bool.and_eq_true, Bool.and_eq_true] at hcond
    have : containsSub "android".toList (lcs ua) = true :=
      containsSub_of_subAt hi hcond.1.1
    simp only [Bool.or_eq_true]
    tauto

/-! ## Session identity (`TrackingUtils.generateSessionId`)

The source is `` `${Date.now()}-${Math.random().toString(36).substr(2, 9)}` ``.
`Date.now()` (an integral millisecond count) and the base-36 fractional
tail produced by `Math.random().toString(36).substr(2, 9)` are ambient
inputs of the embedding. -/

/-- `TrackingUtils.generateSessionId`: the time component, a dash, then the
random tail. -/
def generateSessionId (nowMs : Nat) (randTail : String) : String :=
  toString nowMs ++ "-" ++ randTail

/-! ## Scroll depth (`TrackingUtils.calculateScrollDepth`)

Source:

  const scrollTop = window.pageYOffset || document.documentElement.scrollTop
  const docHeight = document.documentElement.scrollHeight - window.innerHeight
  return (scrollTop / docHeight) * 100

JavaScript numbers are modelled by `Rat`; division by zero yields a
non-finite value (`Infinity`/`-Infinity`/`NaN`), modelled as `none`. -/

/-- The ambient geometry read by `calculateScrollDepth`. -/
structure ScrollEnv where
  pageYOffset : Rat      -- window.pageYOffset
  docScrollTop : Rat     -- document.documentElement.scrollTop
  scrollHeight : Rat     -- document.documentElement.scrollHeight
  innerHeight : Rat      -- window.innerHeight
  deriving Repr, DecidableEq

/-- `window.pageYOffset || document.documentElement.scrollTop`: the `||`
falls through on a zero (falsy) offset. -/
def scrollTopJS (e : ScrollEnv) : Rat :=
  if e.pageYOffset ≠ 0 then e.pageYOffset else e.docScrollTop

/-- `TrackingUtils.calculateScrollDepth`; `none` models a non-finite
JavaScript result (division by a zero denominator). -/
def calculateScrollDepth (e : ScrollEnv) : Option Rat :=
  let docHeight := e.scrollHeight - e.innerHeight
  if docHeight = 0 then none else some (scrollTopJS e / docHeight * 100)

/-! ## Local store (`saveToLocalStorage` / `getFromLocalStorage` /
`clearLocalStorage`)

The single `localStorage` key `'trackingData'` holds a JSON-serialised
list of `{trackingData, events, timestamp}` records. Serialisation is
modelled abstractly: the key either holds a well-formed serialised list of
records (of an abstract payload type `α`), holds corrupted text that
`JSON.parse` rejects, or is absent. The storage itself may be unavailable
(every access throws) or full (`setItem` throws). Each utility is embedded
as its `try` body (an `Except`-returning function) plus the total
`catch` wrapper the source actually exports. -/

/-- Contents of the `'trackingData'` key. -/
inductive StoredContent (α : Type) where
  | corrupt
  | valid (records : List α)
  deriving Repr, DecidableEq

/-- State of the browser's local storage. -/
structure StoreState (α : Type) where
  /-- When false, every `localStorage` access throws. -/
  available : Bool
  /-- When true, `setItem` throws (quota exceeded). -/
  full : Bool
  /-- The `'trackingData'` key: absent, or its (possibly corrupt) content. -/
  content : Option (StoredContent α)
  deriving Repr, DecidableEq

/-- Errors the `try` bodies can raise. -/
inductive StorageErr where
  | unavailable
  | parseError
  | quotaExceeded
  deriving Repr, DecidableEq

/-- `localStorage.setItem` of the serialised list `l`: throws when the
storage is full. -/
def setItemTracking {α : Type} (l : List α) (st : StoreState α) :
    Except StorageErr (StoreState α) :=
  if st.full then .error .quotaExceeded
  else .ok { st with content := some (.valid l) }

/-- The `try` body of `saveToLocalStorage`: read the existing list (an
absent key yields `[]`, corrupt content makes `JSON.parse` throw), push
the new record, write back. -/
def saveAux {α : Type} (r : α) (st : StoreState α) :
    Except StorageErr (StoreState α) :=
  if st.available = false then .error .unavailable
  else
    match st.content with
    | some .corrupt => .error .parseError
    | some (.valid l) => setItemTracking (l ++ [r]) st
    | none => setItemTracking ([] ++ [r]) st

/-- `TrackingUtils.saveToLocalStorage`: the `try`/`catch` wrapper. Returns
the source's boolean outcome together with the storage state afterwards
(unchanged when the body threw). -/
def saveToLocalStorage {α : Type} (r : α) (st : StoreState α) :
    Bool × StoreState α :=
  match saveAux r st with
  | .ok st2 => (true, st2)
  | .error _ => (false, st)

/-- The `try` body of `getFromLocalStorage`. -/
def getAux {α : Type} (st : StoreState α) : Except StorageErr (List α) :=
  if st.available = false then .error .unavailable
  else
    match st.content with
    | some .corrupt => .error .parseError
    | some (.valid l) => .ok l
    | none => .ok []

/-- `TrackingUtils.getFromLocalStorage`: returns `[]` when the body threw. -/
def getFromLocalStorage {α : Type} (st : StoreState α) : List α :=
  match getAux st with
  | .ok l => l
  | .error _ => []

/-- The `try` body of `clearLocalStorage` (`removeItem`). -/
def clearAux {α : Type} (st : StoreState α) :
    Except StorageErr (StoreState α) :=
  if st.available = false then .error .unavailable
  else .ok { st with content := none }

/-- `TrackingUtils.clearLocalStorage`. -/
def clearLocalStorage {α : Type} (st : StoreState α) : Bool × StoreState α :=
  match clearAux st with
  | .ok st2 => (true, st2)
  | .error _ => (false, st)

/-- The recognised configuration record `DEFAULT_TRACKING_CONFIG`. -/
structure TrackingConfig where
  autoSendInterval : Nat
  endpoints : List String
  trackClicks : Bool
  trackScroll : Bool
  trackMouseMovements : Bool
  trackFocus : Bool
  scrollThrottle : Nat
  mouseThrottle : Nat
  enableLocalStorage : Bool
  maxLocalStorageItems : Nat
  deriving Repr, DecidableEq

/-- `DEFAULT_TRACKING_CONFIG` from the source. -/
def DEFAULT_TRACKING_CONFIG : TrackingConfig :=
  { autoSendInterval := 30000
    endpoints := ["/api/tracking"]
    trackClicks := true
    trackScroll := true
    trackMouseMovements := true
    trackFocus := true
    scrollThrottle := 100
    mouseThrottle := 1000
    enableLocalStorage := true
    maxLocalStorageItems := 50 }

/-- `n` successive `saveToLocalStorage` calls of records `0, 1, 2, …`
starting from state `st` (outcome booleans discarded). -/
def saveN (n : Nat) (st : StoreState Nat) : StoreState Nat :=
  (List.range n).foldl (fun s i => (saveToLocalStorage i s).2) st

/-! ## Delivery manager (`TrackingUtils.sendToMultipleEndpoints`)

Source: each endpoint gets `fetch(endpoint, {...}).catch(error => null)`;
the caught promises go through `Promise.allSettled`, and the result is
`results.map((result, index) => ({ endpoint: endpoints[index], success:
result.status === 'fulfilled' && result.value !== null, response: ... }))`.

A `fetch` promise either resolves with a `Response` — carrying an HTTP
status, also for non-2xx statuses — or rejects (network error, aborted
request, timeout-induced rejection). The `i`-th entry of `outcomes` is the
outcome of the `i`-th fetch. -/

/-- Outcome of one `fetch` call. -/
inductive FetchOutcome where
  | resolved (status : Nat)
  | rejected
  deriving Repr, DecidableEq

/-- `fetch(endpoint, …).catch(error => null)`: the fulfilled value is the
response (its status) or `null`. -/
def fetchCatchNull : FetchOutcome → Option Nat
  | .resolved s => some s
  | .rejected => none

/-- One entry of the result array of `sendToMultipleEndpoints`. -/
structure EndpointResult where
  endpoint : String
  success : Bool
  response : Option Nat
  deriving Repr, DecidableEq

/-- `TrackingUtils.sendToMultipleEndpoints`: since every promise was given
a `.catch` handler, `Promise.allSettled` sees only fulfilled promises, so
`success` is `value !== null` and `response` is the fulfilled value. -/
def sendToMultipleEndpoints (endpoints : List String)
    (outcomes : List FetchOutcome) : List EndpointResult :=
  (endpoints.zip outcomes).map (fun p =>
    { endpoint := p.1
      success := (fetchCatchNull p.2).isSome
      response := fetchCatchNull p.2 })

/-- The spec's notion of a successful submission for one endpoint: the
request resolved and the endpoint acknowledged receipt (an HTTP success
status); network error, timeout and non-success responses all fail. -/
def specSubmissionSuccess : FetchOutcome → Bool
  | .resolved s => 200 ≤ s && s < 300
  | .rejected => false

/-! ## IP lookup (`TrackingUtils.getIPAddress`)

Source: `fetch('https://api.ipify.org?format=json')`, then
`response.json()`, then `data.ip`, all inside `try`; any throw is caught
and `undefined` is returned. -/

/-- How the ipify request can go: the fetch rejects, the body is not JSON,
the JSON has no `ip` field, or an `ip` string is present. -/
inductive IPResponse where
  | netError
  | badJson
  | jsonWithoutIp
  | ok (ip : String)
  deriving Repr, DecidableEq

/-- `TrackingUtils.getIPAddress`. -/
def getIPAddress : IPResponse → Option String
  | .netError => none
  | .badJson => none
  | .jsonWithoutIp => none
  | .ok ip => some ip

/-! ## Snapshot builder (`TrackingUtils.formatTrackingData`)

`formatTrackingData(data: Partial<UserTrackingData>): UserTrackingData`
fills every field from the caller-supplied partial record, falling back on
ambient platform state (`navigator`, `window`, `Date.now()`, …) or a
static default. Fields are merged with `||` (the override is skipped when
falsy: `0`, `''`, `undefined`) or with `??` (the override is skipped only
when `undefined`/`null`); the connection fields come from a spread of
`getConnectionInfo()` and never read the overrides.

Numbers: millisecond times and counters are `Nat` (JavaScript produces
integral values for them), geometry/ratio fields are `Rat`.
`UserTrackingData`'s TypeScript declaration lives in
`src/hooks/useUserTracking.ts`, which is not part of the sources; the
optionality of its fields is modelled from the spec's data model
(`ipAddress`, `pageLoadTime` and the connection fields optional,
`doNotTrack` tri-state, everything else required). -/

/-- `navigator.connection`, when present. -/
structure RawConnection where
  effectiveType : Option String
  typ : Option String      -- `connection.type`
  downlink : Option Rat
  rtt : Option Rat
  deriving Repr, DecidableEq

/-- Result of `getConnectionInfo`: all fields absent when the platform has
no `navigator.connection`. -/
structure ConnectionInfo where
  connectionType : Option String
  effectiveType : Option String
  downlink : Option Rat
  rtt : Option Rat
  deriving Repr, DecidableEq

/-- JavaScript `a || b` for a possibly-undefined string `a`. -/
def jsOrStrOpt (a : Option String) (b : Option String) : Option String :=
  match a with
  | some s => if s ≠ "" then some s else b
  | none => b

/-- `TrackingUtils.getConnectionInfo`: when `'connection' in navigator`,
`connectionType` is `connection.effectiveType || connection.type`; the
other fields are copied; otherwise `{}` (every field absent). -/
def getConnectionInfo (conn : Option RawConnection) : ConnectionInfo :=
  match conn with
  | some c =>
      { connectionType := jsOrStrOpt c.effectiveType c.typ
        effectiveType := c.effectiveType
        downlink := c.downlink
        rtt := c.rtt }
  | none =>
      { connectionType := none, effectiveType := none
        downlink := none, rtt := none }

/-- `TrackingUtils.getPageLoadTime`: `loadEventEnd - navigationStart` when
`window.performance.timing` exists, `undefined` otherwise. The pair holds
`(loadEventEnd, navigationStart)`. -/
def getPageLoadTime (perfTiming : Option (Int × Int)) : Option Int :=
  perfTiming.map (fun t => t.1 - t.2)

/-- The ambient platform state read by `formatTrackingData`. `Date.now()`
and `generateSessionId`'s random tail are inputs like the rest. -/
structure Env where
  userAgent : String
  language : String
  platform : String
  cookieEnabled : Bool
  doNotTrack : Option String
  screenWidth : Rat
  screenHeight : Rat
  innerWidth : Rat
  innerHeight : Rat
  colorDepth : Rat
  devicePixelRatio : Rat
  connection : Option RawConnection
  timezone : String
  nowMs : Nat
  referrer : String
  locationHref : String
  perfTiming : Option (Int × Int)
  ontouchstart : Bool
  randTail : String
  deriving Repr, DecidableEq

/-- The full snapshot record `UserTrackingData`. -/
structure UserTrackingData where
  userAgent : String
  language : String
  platform : String
  cookieEnabled : Bool
  doNotTrack : Option String
  screenWidth : Rat
  screenHeight : Rat
  viewportWidth : Rat
  viewportHeight : Rat
  colorDepth : Rat
  pixelRatio : Rat
  connectionType : Option String
  effectiveType : Option String
  downlink : Option Rat
  rtt : Option Rat
  ipAddress : Option String
  timezone : String
  sessionStartTime : Nat
  totalActiveTime : Nat
  lastActivityTime : Nat
  pageViews : Nat
  clicks : Nat
  scrollDepth : Rat
  mouseMovements : Nat
  referrer : String
  currentUrl : String
  pageLoadTime : Option Int
  isMobile : Bool
  isTablet : Bool
  isDesktop : Bool
  touchSupport : Bool
  sessionId : String
  timestamp : Nat
  deriving Repr, DecidableEq

/-- `Partial<UserTrackingData>`: every field possibly absent. A `none`
stands for a field the caller did not supply (`undefined`; for the
`??`-merged nullable `doNotTrack`, also `null`, which `??` treats the
same way). -/
structure PartialTrackingData where
  userAgent : Option String := none
  language : Option String := none
  platform : Option String := none
  cookieEnabled : Option Bool := none
  doNotTrack : Option String := none
  screenWidth : Option Rat := none
  screenHeight : Option Rat := none
  viewportWidth : Option Rat := none
  viewportHeight : Option Rat := none
  colorDepth : Option Rat := none
  pixelRatio : Option Rat := none
  connectionType : Option String := none
  effectiveType : Option String := none
  downlink : Option Rat := none
  rtt : Option Rat := none
  ipAddress : Option String := none
  timezone : Option String := none
  sessionStartTime : Option Nat := none
  totalActiveTime : Option Nat := none
  lastActivityTime : Option Nat := none
  pageViews : Option Nat := none
  clicks : Option Nat := none
  scrollDepth : Option Rat := none
  mouseMovements : Option Nat := none
  referrer : Option String := none
  currentUrl : Option String := none
  pageLoadTime : Option Int := none
  isMobile : Option Bool := none
  isTablet : Option Bool := none
  isDesktop : Option Bool := none
  touchSupport : Option Bool := none
  sessionId : Option String := none
  timestamp : Option Nat := none
  deriving Repr, DecidableEq

/-- JavaScript `a || b` where `a` is a possibly-absent string: an absent
or empty override falls through. -/
def jsOrS (a : Option String) (b : String) : String :=
  match a with
  | some s => if s ≠ "" then s else b
  | none => b

/-- JavaScript `a || b` where `a` is a possibly-absent number (`Nat`
view): an absent or zero override falls through. -/
def jsOrN (a : Option Nat) (b : Nat) : Nat :=
  match a with
  | some v => if v ≠ 0 then v else b
  | none => b

/-- JavaScript `a || b` where `a` is a possibly-absent number (`Rat`
view). -/
def jsOrQ (a : Option Rat) (b : Rat) : Rat :=
  match a with
  | some v => if v ≠ 0 then v else b
  | none => b

/-- JavaScript `a || b` where `a` is a possibly-absent, possibly-zero
number and `b` is itself possibly absent (the `pageLoadTime` merge). -/
def jsOrZOpt (a : Option Int) (b : Option Int) : Option Int :=
  match a with
  | some v => if v ≠ 0 then some v else b
  | none => b

/-- `TrackingUtils.formatTrackingData`. Every right-hand side mirrors one
line of the source's object literal; the spread of `getConnectionInfo()`
appears as the four connection fields. -/
def formatTrackingData (env : Env) (data : PartialTrackingData) :
    UserTrackingData :=
  let conn := getConnectionInfo env.connection
  { userAgent := jsOrS data.userAgent env.userAgent
    language := jsOrS data.language env.language
    platform := jsOrS data.platform env.platform
    cookieEnabled := data.cookieEnabled.getD env.cookieEnabled
    doNotTrack := data.doNotTrack.orElse (fun _ => env.doNotTrack)
    screenWidth := jsOrQ data.screenWidth env.screenWidth
    screenHeight := jsOrQ data.screenHeight env.screenHeight
    viewportWidth := jsOrQ data.viewportWidth env.innerWidth
    viewportHeight := jsOrQ data.viewportHeight env.innerHeight
    colorDepth := jsOrQ data.colorDepth env.colorDepth
    pixelRatio := jsOrQ data.pixelRatio env.devicePixelRatio
    connectionType := conn.connectionType
    effectiveType := conn.effectiveType
    downlink := conn.downlink
    rtt := conn.rtt
    ipAddress := data.ipAddress
    timezone := jsOrS data.timezone env.timezone
    sessionStartTime := jsOrN data.sessionStartTime env.nowMs
    totalActiveTime := jsOrN data.totalActiveTime 0
    lastActivityTime := jsOrN data.lastActivityTime env.nowMs
    pageViews := jsOrN data.pageViews 1
    clicks := jsOrN data.clicks 0
    scrollDepth := jsOrQ data.scrollDepth 0
    mouseMovements := jsOrN data.mouseMovements 0
    referrer := jsOrS data.referrer env.referrer
    currentUrl := jsOrS data.currentUrl env.locationHref
    pageLoadTime := jsOrZOpt data.pageLoadTime (getPageLoadTime env.perfTiming)
    isMobile := data.isMobile.getD (detectDeviceType env.userAgent.toList env.ontouchstart).isMobile
    isTablet := data.isTablet.getD (detectDeviceType env.userAgent.toList env.ontouchstart).isTablet
    isDesktop := data.isDesktop.getD (detectDeviceType env.userAgent.toList env.ontouchstart).isDesktop
    touchSupport := data.touchSupport.getD env.ontouchstart
    sessionId := jsOrS data.sessionId (generateSessionId env.nowMs env.randTail)
    timestamp := jsOrN data.timestamp env.nowMs }

/-- `TrackingUtils.validateTrackingData`: each of `userAgent`,
`sessionId`, `timestamp`, `currentUrl` must be neither `undefined` nor
`null`. In the embedded record these four fields are required
(non-nullable) — their per-field presence checks are the constant-true
checks written out below. -/
def validateTrackingData (d : UserTrackingData) : Bool :=
  presentS d.userAgent && presentS d.sessionId
    && presentN d.timestamp && presentS d.currentUrl
where
  /-- A present string value is neither `undefined` nor `null`. -/
  presentS : String → Bool := fun _ => true
  /-- A present number value is neither `undefined` nor `null`. -/
  presentN : Nat → Bool := fun _ => true

/-- `TrackingUtils.createEvent`. -/
structure TrackingEvent where
  typ : String
  data : PartialTrackingData
  timestamp : Nat
  deriving Repr, DecidableEq

/-- `TrackingUtils.createEvent(type, data)` at clock value `nowMs`. -/
def createEvent (typ : String) (data : PartialTrackingData) (nowMs : Nat) :
    TrackingEvent :=
  { typ := typ, data := data, timestamp := nowMs }

/-! ## Concrete sample environments used by counterexamples and witnesses -/

/-- A representative desktop browsing environment. -/
def sampleEnv : Env :=
  { userAgent := "Mozilla/5.0 (Windows NT 10.0; Win64; x64)"
    language := "en-US"
    platform := "Win32"
    cookieEnabled := true
    doNotTrack := none
    screenWidth := 1920
    screenHeight := 1080
    innerWidth := 1200
    innerHeight := 800
    colorDepth := 24
    devicePixelRatio := 2
    connection := none
    timezone := "America/Argentina/Buenos_Aires"
    nowMs := 1700000000000
    referrer := ""
    locationHref := "https://example.com/"
    perfTiming := none
    ontouchstart := false
    randTail := "k3j9x2m1q" }

/-- The same environment on an iPad: its user agent contains `iPad`. -/
def iPadEnv : Env :=
  { sampleEnv with
    userAgent := "Mozilla/5.0 (iPad; CPU OS 16_0 like Mac OS X) AppleWebKit/605.1.15"
    ontouchstart := true }

/-! ## Claims -/

/-- C1: the claim states that a user agent matched by the tablet pattern
yields `isTablet = true`, `isMobile = false`, `isDesktop = false`. This is
false: the user agent `iPad` is matched by the tablet pattern, yet
`detectDeviceType` reports `isMobile = true` as well — the two flags are
computed by independent regex tests, not by a priority cascade, and every
alternative of the tablet pattern (`iPad`, `Android…`) is also an
alternative of the mobile pattern. -/
theorem C1_counterexample :
    tabletTest "iPad".toList = true ∧
    (detectDeviceType "iPad".toList false).isTablet = true ∧
    (detectDeviceType "iPad".toList false).isMobile = true ∧
    (detectDeviceType "iPad".toList false).isDesktop = false := by decide

/-- C1 (amended): for every user agent matched by the tablet pattern,
`detectDeviceType` returns `isTablet = true` and `isDesktop = false`, and
`isMobile` is also `true`: the flags are independent regex tests (no
priority cascade), and a tablet-pattern match always implies a
mobile-pattern match. -/
theorem C1_tablet_classification (ua : List Char) (touch : Bool)
    (h : tabletTest ua = true) :
    (detectDeviceType ua touch).isTablet = true ∧
    (detectDeviceType ua touch).isMobile = true ∧
    (detectDeviceType ua touch).isDesktop = false := by
  have hm := mobileTest_of_tabletTest h
  simp [detectDeviceType, h, hm]

/-- C1 witness: the amended classification at the concrete user agent of
`iPadEnv`. -/
theorem C1_tablet_classification_witness :
    (detectDeviceType iPadEnv.userAgent.toList true).isTablet = true ∧
    (detectDeviceType iPadEnv.userAgent.toList true).isMobile = true ∧
    (detectDeviceType iPadEnv.userAgent.toList true).isDesktop = false :=
  C1_tablet_classification iPadEnv.userAgent.toList true (by decide)

/-- C2: the claim states that `calculateScrollDepth` clamps to `[0, 100]`
and returns exactly `0` when `scrollHeight ≤ viewportHeight`. This is
false: the source returns the raw quotient with no clamping and no
denominator guard. With `scrollTop = 50` and `scrollHeight =
viewportHeight = 100` the JavaScript result is non-finite (`none` in the
embedding), not `0`; a scroll position past the scrollable range yields
`300`; a page shorter than the viewport yields `-50`. -/
theorem C2_counterexample :
    calculateScrollDepth ⟨50, 0, 100, 100⟩ = none ∧
    calculateScrollDepth ⟨50, 0, 100, 100⟩ ≠ some 0 ∧
    calculateScrollDepth ⟨300, 0, 200, 100⟩ = some 300 ∧
    calculateScrollDepth ⟨50, 0, 100, 200⟩ = some (-50) := by
  have h1 : calculateScrollDepth ⟨50, 0, 100, 100⟩ = none := by
    norm_num [calculateScrollDepth, scrollTopJS]
  refine ⟨h1, by rw [h1]; exact fun h => Option.noConfusion h, ?_, ?_⟩ <;>
    norm_num [calculateScrollDepth, scrollTopJS]

/-- C2 (amended): `calculateScrollDepth` returns the raw value
`scrollTop / (scrollHeight - viewportHeight) * 100` with no clamping: when
`scrollHeight = viewportHeight` the result is non-finite rather than `0`;
whenever the result is finite it equals the unclamped quotient; and it
lies in `[0, 100]` exactly in the ordinary regime `0 ≤ scrollTop ≤
scrollHeight - viewportHeight` with a positive denominator. -/
theorem C2_scrollDepth_unclamped (e : ScrollEnv) :
    (e.scrollHeight = e.innerHeight → calculateScrollDepth e = none) ∧
    (∀ q, calculateScrollDepth e = some q →
      q = scrollTopJS e / (e.scrollHeight - e.innerHeight) * 100) ∧
    (0 < e.scrollHeight - e.innerHeight → 0 ≤ scrollTopJS e →
      scrollTopJS e ≤ e.scrollHeight - e.innerHeight →
      ∃ q, calculateScrollDepth e = some q ∧ 0 ≤ q ∧ q ≤ 100) := by
  refine ⟨?_, ?_, ?_⟩
  · intro h
    simp [calculateScrollDepth, h, sub_eq_zero_of_eq]
  · intro q hq
    by_cases hd : e.scrollHeight - e.innerHeight = 0
    · simp [calculateScrollDepth, hd] at hq
    · simp [calculateScrollDepth, hd] at hq
      exact hq.symm
  · intro hpos hle0 hle1
    have hd : e.scrollHeight - e.innerHeight ≠ 0 := ne_of_gt hpos
    refine ⟨scrollTopJS e / (e.scrollHeight - e.innerHeight) * 100,
      by simp [calculateScrollDepth, hd], ?_, ?_⟩
    · positivity
    · have h1 : scrollTopJS e / (e.scrollHeight - e.innerHeight) ≤ 1 :=
        (div_le_one hpos).mpr hle1
      calc scrollTopJS e / (e.scrollHeight - e.innerHeight) * 100
          ≤ 1 * 100 := by
            apply mul_le_mul_of_nonneg_right h1
            norm_num
        _ = 100 := by norm_num

/-- C2 witness: the amended statement at a concrete geometry — a 300-pixel
document in a 100-pixel viewport, scrolled 50 pixels, yields a finite
depth inside `[0, 100]`. -/
theorem C2_scrollDepth_unclamped_witness :
    ∃ q, calculateScrollDepth ⟨50, 0, 300, 100⟩ = some q ∧ 0 ≤ q ∧ q ≤ 100 :=
  (C2_scrollDepth_unclamped ⟨50, 0, 300, 100⟩).2.2 (by norm_num)
    (by norm_num [scrollTopJS]) (by norm_num [scrollTopJS])

set_option maxRecDepth 8192

/-- C3: the claim (and the spec) say that appending past
`maxLocalStorageItems` evicts the oldest records, leaving exactly the cap
(50) most recent after 55 appends. The code declares the cap in
`DEFAULT_TRACKING_CONFIG` but `saveToLocalStorage` never consults it and
never drops anything: 55 appends into an empty, healthy store leave all 55
records. -/
theorem C3_no_eviction :
    (getFromLocalStorage (saveN 55 ⟨true, false, none⟩)).length = 55 ∧
    DEFAULT_TRACKING_CONFIG.maxLocalStorageItems = 50 ∧
    (getFromLocalStorage (saveN 55 ⟨true, false, none⟩)).length ≠
      DEFAULT_TRACKING_CONFIG.maxLocalStorageItems := by
  refine ⟨?_, rfl, ?_⟩ <;> decide

/-- C4: the claim states that an endpoint's success flag is true iff that
endpoint's submission succeeded, with a non-success HTTP response counting
as failure. This is false: `fetch` fulfils its promise for any HTTP
response, the code never inspects the response status, and only a rejected
promise (caught and turned into `null`) is reported as failure — an
endpoint answering HTTP 500 is reported with `success = true`, although
per the claim that submission failed. -/
theorem C4_counterexample :
    (sendToMultipleEndpoints ["/api/tracking"] [.resolved 500]).map
      EndpointResult.success = [true] ∧
    specSubmissionSuccess (.resolved 500) = false := by decide

/-- C4 (amended): `sendToMultipleEndpoints` never raises (every fetch
promise carries a `.catch`, and the aggregate is a total function of the
outcomes); given one outcome per endpoint it returns exactly one result
per endpoint, in endpoint order, and an entry's success flag is true iff
that endpoint's fetch promise resolved — any HTTP response, success or
not, counts as success; only a network error / rejection counts as
failure. -/
theorem C4_send_per_endpoint (endpoints : List String)
    (outcomes : List FetchOutcome) (h : outcomes.length = endpoints.length) :
    (sendToMultipleEndpoints endpoints outcomes).length = endpoints.length ∧
    ∀ i (hi : i < endpoints.length) (ho : i < outcomes.length)
      (hr : i < (sendToMultipleEndpoints endpoints outcomes).length),
      (sendToMultipleEndpoints endpoints outcomes)[i].endpoint = endpoints[i] ∧
      ((sendToMultipleEndpoints endpoints outcomes)[i].success = true ↔
        outcomes[i] ≠ FetchOutcome.rejected) := by
  constructor
  · simp [sendToMultipleEndpoints, List.length_zip, h]
  · intro i hi ho hr
    constructor
    · simp [sendToMultipleEndpoints]
    · simp only [sendToMultipleEndpoints, List.getElem_map, List.getElem_zip]
      cases houtcome : outcomes[i] with
      | resolved s => simp [fetchCatchNull]
      | rejected => simp [fetchCatchNull]

/-- C4 witness: the amended statement applied to three endpoints of which
the second rejects; three results come back. -/
theorem C4_send_per_endpoint_witness :
    (sendToMultipleEndpoints ["/api/tracking", "/api/backup", "/api/analytics"]
      [.resolved 200, .rejected, .resolved 204]).length = 3 :=
  (C4_send_per_endpoint ["/api/tracking", "/api/backup", "/api/analytics"]
    [.resolved 200, .rejected, .resolved 204] (by decide)).1

/-- C5: the claim states that a caller-supplied field value is never
replaced by a platform-inspected or default value. This is false for the
`||`-merged fields, where a falsy override falls through: supplying
`pageViews = 0` yields `1` (the static default), and a caller-supplied
`downlink` is discarded outright because the connection fields are spread
from `getConnectionInfo()` without consulting the overrides. -/
theorem C5_counterexample :
    (formatTrackingData sampleEnv { pageViews := some 0 }).pageViews = 1 ∧
    ({ pageViews := some 0 } : PartialTrackingData).pageViews = some 0 ∧
    (1 : Nat) ≠ 0 ∧
    (formatTrackingData sampleEnv { downlink := some 10 }).downlink = none ∧
    ({ downlink := some 10 } : PartialTrackingData).downlink = some 10 := by
  refine ⟨rfl, rfl, by decide, rfl, rfl⟩

/-- C5 (amended): per-field merge priority of `formatTrackingData`: a
truthy override wins for `||`-merged fields (shown for `userAgent`,
`pageViews`, `screenWidth`, `sessionId`), any supplied override wins for
`??`-merged fields (shown for `cookieEnabled`, `isMobile`,
`touchSupport`), an absent or falsy `||`-override falls back to the
platform value or static default, `ipAddress` is copied verbatim from the
overrides, and the connection fields always come from live platform
inspection, ignoring the overrides. -/
theorem C5_merge_priority (env : Env) (d : PartialTrackingData) :
    (∀ s, d.userAgent = some s → s ≠ "" →
      (formatTrackingData env d).userAgent = s) ∧
    (d.userAgent = none → (formatTrackingData env d).userAgent = env.userAgent) ∧
    (∀ n, d.pageViews = some n → n ≠ 0 →
      (formatTrackingData env d).pageViews = n) ∧
    (d.pageViews = some 0 → (formatTrackingData env d).pageViews = 1) ∧
    (d.pageViews = none → (formatTrackingData env d).pageViews = 1) ∧
    (∀ q, d.screenWidth = some q → q ≠ 0 →
      (formatTrackingData env d).screenWidth = q) ∧
    (∀ s, d.sessionId = some s → s ≠ "" →
      (formatTrackingData env d).sessionId = s) ∧
    (d.sessionId = none → (formatTrackingData env d).sessionId =
      generateSessionId env.nowMs env.randTail) ∧
    (∀ b, d.cookieEnabled = some b →
      (formatTrackingData env d).cookieEnabled = b) ∧
    (∀ b, d.isMobile = some b → (formatTrackingData env d).isMobile = b) ∧
    (∀ b, d.touchSupport = some b →
      (formatTrackingData env d).touchSupport = b) ∧
    ((formatTrackingData env d).ipAddress = d.ipAddress) ∧
    ((formatTrackingData env d).downlink =
      (getConnectionInfo env.connection).downlink) ∧
    ((formatTrackingData env d).connectionType =
      (getConnectionInfo env.connection).connectionType) := by
  refine ⟨?_, ?_, ?_, ?_, ?_, ?_, ?_, ?_, ?_, ?_, ?_, rfl, rfl, rfl⟩
  · intro s hs hne
    simp [formatTrackingData, jsOrS, hs, hne]
  · intro hs
    simp [formatTrackingData, jsOrS, hs]
  · intro n hn hne
    simp [formatTrackingData, jsOrN, hn, hne]
  · intro hn
    simp [formatTrackingData, jsOrN, hn]
  · intro hn
    simp [formatTrackingData, jsOrN, hn]
  · intro q hq hne
    simp [formatTrackingData, jsOrQ, hq, hne]
  · intro s hs hne
    simp [formatTrackingData, jsOrS, hs, hne]
  · intro hs
    simp [formatTrackingData, jsOrS, hs]
  · intro b hb
    simp [formatTrackingData, hb]
  · intro b hb
    simp [formatTrackingData, hb]
  · intro b hb
    simp [formatTrackingData, hb]

/-- C5 witness: the amended merge priority at a concrete override — a
supplied user agent string wins. -/
theorem C5_merge_priority_witness :
    (formatTrackingData sampleEnv { userAgent := some "custom-agent" }).userAgent
      = "custom-agent" :=
  (C5_merge_priority sampleEnv { userAgent := some "custom-agent" }).1
    "custom-agent" rfl (by decide)

/-- C6: the claim states that every snapshot has exactly one of
`isMobile`/`isTablet`/`isDesktop` true when the caller does not override
the flags. This is false: with the ambient user agent of an iPad and no
overrides, `formatTrackingData` produces a snapshot with both `isMobile`
and `isTablet` true. -/
theorem C6_counterexample :
    (formatTrackingData iPadEnv {}).isMobile = true ∧
    (formatTrackingData iPadEnv {}).isTablet = true ∧
    (formatTrackingData iPadEnv {}).isDesktop = false := by decide

/-- C6 (amended): when the caller does not override the flags, every
snapshot has at least one of the three device flags set, `isDesktop`
holds exactly when neither `isMobile` nor `isTablet` does, and `isTablet`
implies `isMobile`; hence exactly one flag is true unless the user agent
matches the tablet pattern, in which case exactly `isMobile` and
`isTablet` are both true. -/
theorem C6_device_flags (env : Env) (d : PartialTrackingData)
    (hm : d.isMobile = none) (ht : d.isTablet = none)
    (hd : d.isDesktop = none) :
    ((formatTrackingData env d).isMobile || (formatTrackingData env d).isTablet
      || (formatTrackingData env d).isDesktop) = true ∧
    ((formatTrackingData env d).isDesktop =
      (!(formatTrackingData env d).isMobile &&
        !(formatTrackingData env d).isTablet)) ∧
    ((formatTrackingData env d).isTablet = true →
      (formatTrackingData env d).isMobile = true) := by
  simp only [formatTrackingData, hm, ht, hd, Option.getD_none, detectDeviceType]
  refine ⟨?_, ?_, ?_⟩
  · cases hmt : mobileTest env.userAgent.toList <;> simp [hmt]
  · trivial
  · intro htab
    exact mobileTest_of_tabletTest htab

/-- C6 witness: the amended flag relations at the concrete iPad
environment with no overrides. -/
theorem C6_device_flags_witness :
    (formatTrackingData iPadEnv {}).isDesktop =
      (!(formatTrackingData iPadEnv {}).isMobile &&
        !(formatTrackingData iPadEnv {}).isTablet) :=
  (C6_device_flags iPadEnv {} rfl rfl rfl).2.1

/-- C7: every local-store operation reports failure as a return value,
never raising into the caller (each embedded operation is the total
`catch`-wrapper of its `Except`-returning `try` body): `saveToLocalStorage`
returns `false` exactly when the storage is unavailable, the stored text
is corrupted, or the write is rejected as full; a read of corrupted or
unavailable storage returns the empty list; `clearLocalStorage` returns
`false` exactly when the storage is unavailable. -/
theorem C7_local_store_graceful {α : Type} (r : α) (st : StoreState α) :
    ((saveToLocalStorage r st).1 = false ↔
      (st.available = false ∨ st.content = some StoredContent.corrupt ∨
        st.full = true)) ∧
    (st.content = some StoredContent.corrupt → getFromLocalStorage st = []) ∧
    (st.available = false → getFromLocalStorage st = []) ∧
    ((clearLocalStorage st).1 = false ↔ st.available = false) := by
  obtain ⟨av, fu, co⟩ := st
  cases av <;> cases fu <;>
    rcases co with _ | (_ | l) <;>
      simp [saveToLocalStorage, saveAux, setItemTracking, getFromLocalStorage,
        getAux, clearLocalStorage, clearAux]

/-- C7 witness: a corrupted store makes `saveToLocalStorage` report
`false` and makes `getFromLocalStorage` return the empty list. -/
theorem C7_local_store_graceful_witness :
    (getFromLocalStorage (⟨true, false, some StoredContent.corrupt⟩ :
      StoreState Nat) = []) :=
  (C7_local_store_graceful 0
    ⟨true, false, some StoredContent.corrupt⟩).2.1 rfl

/-- C8: `generateSessionId` concatenates the millisecond clock, a dash,
and an independent random tail, so two identifiers generated in the same
millisecond differ whenever their random tails differ. -/
theorem C8_sessionId_distinct (nowMs : Nat) (r1 r2 : String) (h : r1 ≠ r2) :
    generateSessionId nowMs r1 ≠ generateSessionId nowMs r2 := by
  intro he
  apply h
  unfold generateSessionId at he
  have hdata := congrArg String.data he
  simp only [String.data_append] at hdata
  exact String.ext (List.append_cancel_left hdata)

/-- C8 witness: two identifiers from the same millisecond with different
random tails are distinct. -/
theorem C8_sessionId_distinct_witness :
    generateSessionId 1700000000000 "k3j9x2m1q" ≠
      generateSessionId 1700000000000 "a81p0qzrw" :=
  C8_sessionId_distinct 1700000000000 "k3j9x2m1q" "a81p0qzrw" (by decide)

/-- C9: for every failing IP lookup — network error, unparsable body, or
a JSON body without an `ip` field — `getIPAddress` returns `undefined`
(`none`) instead of raising, and `formatTrackingData` never consults IP
resolution: the snapshot's `ipAddress` is exactly the caller-supplied
value, absent when the caller supplied none. -/
theorem C9_ip_failure_graceful (r : IPResponse) (env : Env)
    (d : PartialTrackingData) (h : ∀ ip, r ≠ IPResponse.ok ip) :
    getIPAddress r = none ∧
    (formatTrackingData env d).ipAddress = d.ipAddress := by
  constructor
  · cases r with
    | netError => rfl
    | badJson => rfl
    | jsonWithoutIp => rfl
    | ok ip => exact absurd rfl (h ip)
  · rfl

/-- C9 witness: a network error yields `none`, and the snapshot built in
the sample environment with no overrides carries no IP address. -/
theorem C9_ip_failure_graceful_witness :
    getIPAddress IPResponse.netError = none ∧
    (formatTrackingData sampleEnv {}).ipAddress =
      ({} : PartialTrackingData).ipAddress :=
  C9_ip_failure_graceful IPResponse.netError sampleEnv {}
    (fun _ hip => IPResponse.noConfusion hip)

/-- C10: every snapshot produced by `formatTrackingData` passes
`validateTrackingData`: the builder assigns `userAgent`, `sessionId`,
`timestamp` and `currentUrl` from the override or a fallback on every
path, so each of the four presence checks succeeds and the composition is
the constant `true` function. -/
theorem C10_format_always_valid (env : Env) (d : PartialTrackingData) :
    validateTrackingData (formatTrackingData env d) = true := rfl

end Tracking
